import Mathlib

/-!
Verification development for the Optimiser_Engine water-heater optimisation
core. Python sources are shallowly embedded: machine floats are modelled by
rationals extended with a NaN element (the code uses NaN as an explicit
sentinel and never relies on rounding), numpy arrays by lists, fallible
methods by Except, and objects by structures with explicit state passing.
-/

namespace OptimiserEngine

/-- Error kinds raised by the engine, mirroring the exception classes in
engine/models/Exceptions.py, domain/prices_model.py and engine/service.py.
The UpdateRequired warning class is included because compute_self_consumption
raises it as an error. -/
inductive Err where
  | permissionDenied
  | dimensionNotRespected
  | contextNotDefined
  | notEnoughVariables
  | typeError
  | valueError
  | updateRequired
  | modeIncompatible
  | weatherNotValid
  | solverFailed
  | clientBuild
deriving DecidableEq, Repr

/-- Numeric value of a numpy float64 cell: either NaN or a rational.
The engine stores the NaN sentinel in the trajectory vector, so arithmetic
must propagate it exactly as IEEE arithmetic does. -/
inductive RVal where
  | nan : RVal
  | num : ℚ → RVal
deriving DecidableEq, Repr

namespace RVal

/-- Addition with NaN propagation (IEEE semantics restricted to finite values
and NaN, which is all the engine produces). -/
def add : RVal → RVal → RVal
  | nan, _ => nan
  | _, nan => nan
  | num a, num b => num (a + b)

/-- Multiplication with NaN propagation; note that IEEE gives 0 * NaN = NaN. -/
def mul : RVal → RVal → RVal
  | nan, _ => nan
  | _, nan => nan
  | num a, num b => num (a * b)

/-- Negation with NaN propagation. -/
def neg : RVal → RVal
  | nan => nan
  | num a => num (-a)

/-- Subtraction with NaN propagation. -/
def sub (a b : RVal) : RVal := a.add b.neg

/-- Division with NaN propagation; the engine only divides by the nonzero
literal 1000 and by nonzero totals. -/
def div : RVal → RVal → RVal
  | nan, _ => nan
  | _, nan => nan
  | num a, num b => num (a / b)

/-- IEEE comparison: NaN is incomparable, so any less-than test involving
NaN is false. Models the Python and numpy comparison operators. -/
def lt : RVal → RVal → Bool
  | num a, num b => decide (a < b)
  | _, _ => false

/-- Test used by numpy.isnan. -/
def isnan : RVal → Bool
  | nan => true
  | num _ => false

/-- Embedding of numpy.maximum(0, v): NaN propagates, otherwise the maximum
with zero. -/
def max0 : RVal → RVal
  | nan => nan
  | num a => num (max 0 a)

/-- Embedding of the Python builtin max(a, b), which keeps the first argument
unless the second compares strictly greater (NaN comparisons are false). -/
def pymax (a b : RVal) : RVal := if lt a b then b else a

/-- Sum of a list of cells, as numpy.sum: NaN anywhere poisons the total. -/
def listSum (l : List RVal) : RVal := l.foldr add (num 0)

/-- Dot product of two equal-length vectors, as numpy.dot. -/
def dot (a b : List RVal) : RVal := listSum (List.zipWith mul a b)

end RVal

/-- Static system configuration (engine/models/system_config.py). The source
allows each scalar to be None before assembly; every claim under study uses a
fully populated configuration, so the scalars are modelled as present. -/
structure SystemConfig where
  power : ℚ
  volume : ℚ
  heat_loss_coefficient : ℚ
  T_cold_water : ℚ
  T_min_safe : ℚ
  T_max_safe : ℚ
  is_gradation : Bool
deriving DecidableEq, Repr

/-- Horizon-aligned context (engine/models/external_context.py). Each vector
may be None, meaning not yet supplied; setters validate length N on
assignment, which callers of this model carry as explicit hypotheses. -/
structure ExternalContext where
  N : ℕ
  step_minutes : ℕ
  prices_purchases : Option (List ℚ)
  prices_sell : Option (List ℚ)
  solar_production : Option (List ℚ)
  house_consumption : Option (List ℚ)
  water_draws : Option (List ℚ)
  future_setpoints : Option (List ℚ)
  availability_on : Option (List ℚ)
  off_peak_hours : Option (List ℚ)
deriving DecidableEq, Repr

/-- Trajectory production modes (engine/models/trajectory.py, TrajectorySource). -/
inductive TrajectorySource where
  | MANUAL
  | SOLVER
  | SOLVER_DELIVERED
  | STANDARD
  | STANDARD_ROUTER
deriving DecidableEq, Repr

/-- Thermostat strategies for the standard simulator (StandardWHType). -/
inductive StandardWHType where
  | SETPOINT
  | SETPOINT_OFF_PEAK
deriving DecidableEq, Repr

/-- Mutable state of a TrajectorySystem (engine/models/trajectory.py):
production mode, borrowed configuration and context, initial temperature,
the full vector X of length 4N+1 when set, and the two value caches. -/
structure TrajectorySystem where
  mode : TrajectorySource
  config_system : Option SystemConfig
  context : Option ExternalContext
  initial_temperature : Option ℚ
  X : Option (List RVal)
  cost : Option RVal
  self_consumption : Option RVal
deriving DecidableEq, Repr

namespace TrajectorySystem

/-- Embedding of the x property setter (trajectory.py lines 162-232).
The permission check against SOLVER_DELIVERED that the class documentation
and the unit tests describe is commented out in the source (lines 193-194),
so this translation performs no mode check, exactly like the code. Assigning
None clears X and both caches unconditionally; a vector is validated for
context, configuration, length, range and, without gradation, binarity, then
stored with the NaN sentinel on the derived positions. -/
def setDecisions (t : TrajectorySystem) (v : Option (List ℚ)) :
    Except Err TrajectorySystem :=
  match v with
  | none => .ok { t with X := none, cost := none, self_consumption := none }
  | some xs =>
    match t.context with
    | none => .error .contextNotDefined
    | some ctx =>
      match t.config_system with
      | none => .error .notEnoughVariables
      | some cfg =>
        if xs.length ≠ ctx.N then .error .dimensionNotRespected
        else if xs.any (fun a => decide (1 < a) || decide (a < 0)) then
          .error .valueError
        else if cfg.is_gradation = false ∧
            xs.any (fun a => decide (a ≠ 0) && decide (a ≠ 1)) then
          .error .valueError
        else
          .ok { t with
                  X := some (xs.map RVal.num ++
                             List.replicate (3 * ctx.N + 1) RVal.nan),
                  cost := none,
                  self_consumption := none }

/-- Embedding of the x property getter: None unless both X and the context
are set, otherwise the first N entries of X. -/
def xGet (t : TrajectorySystem) : Option (List RVal) :=
  match t.X, t.context with
  | some X, some ctx => some (X.take ctx.N)
  | _, _ => none

/-- Embedding of get_decisions, which simply reads the x property. -/
def get_decisions (t : TrajectorySystem) : Option (List RVal) := t.xGet

/-- Embedding of get_temperatures: None when X is unset, a dimension error
when the length of X is not of the form 4N+1 (the modulus test is on Python
integers, hence the cast through ℤ), else the slice X[N : 2N+1]. -/
def get_temperatures (t : TrajectorySystem) :
    Except Err (Option (List RVal)) :=
  match t.X with
  | none => .ok none
  | some A =>
    let B := A.length
    if ((B : ℤ) - 1) % 4 ≠ 0 then .error .dimensionNotRespected
    else
      let N := (B - 1) / 4
      .ok (some ((A.drop N).take (N + 1)))

/-- Embedding of get_exports: the slice X[3N+1 : 4N+1]. -/
def get_exports (t : TrajectorySystem) : Except Err (Option (List RVal)) :=
  match t.X with
  | none => .ok none
  | some A =>
    let B := A.length
    if ((B : ℤ) - 1) % 4 ≠ 0 then .error .dimensionNotRespected
    else
      let N := (B - 1) / 4
      .ok (some ((A.drop (3 * N + 1)).take N))

/-- Embedding of get_imports: the slice X[2N+1 : 3N+1]. -/
def get_imports (t : TrajectorySystem) : Except Err (Option (List RVal)) :=
  match t.X with
  | none => .ok none
  | some A =>
    let B := A.length
    if ((B : ℤ) - 1) % 4 ≠ 0 then .error .dimensionNotRespected
    else
      let N := (B - 1) / 4
      .ok (some ((A.drop (2 * N + 1)).take N))

/-- Vectorised electrical balance of update_X (trajectory.py lines 341-345):
p_net[i] = house[i] - solar[i] + x[i] * power, elementwise over the horizon
as the numpy expression computes it. -/
def pNetOf (power : ℚ) : List ℚ → List ℚ → List RVal → List RVal
  | h :: hs, s :: ss, x :: xsRest =>
    (((RVal.num h).sub (RVal.num s)).add (x.mul (RVal.num power))) ::
      pNetOf power hs ss xsRest
  | _, _, _ => []

/-- Causal thermal loop of update_X (trajectory.py lines 347-374): from the
previous temperature and the per-step pair (rho, x), the next temperature is
max(T(1-rho) + rho cold + K x - loss, cold) under the Python max semantics.
Returns the list T[0..N] including the seed. -/
def tempSeq (Kgain loss Tcold : ℚ) : List (ℚ × RVal) → RVal → List RVal
  | [], Tprev => [Tprev]
  | (rho, x) :: rest, Tprev =>
    Tprev ::
      tempSeq Kgain loss Tcold rest
        (RVal.pymax
          ((((Tprev.mul (RVal.num (1 - rho))).add
              (RVal.num (rho * Tcold))).add
            ((RVal.num Kgain).mul x)).sub (RVal.num loss))
          (RVal.num Tcold))

/-- Embedding of update_X (trajectory.py lines 315-382): requires X, the
configuration, the context and the initial temperature; reads the context
vectors without a None check, mirroring the numpy TypeError the source would
hit on a missing vector; recomputes imports, exports and the causal thermal
profile, reassembles X = [x | T | I | E] and clears both caches. -/
def update_X (t : TrajectorySystem) : Except Err TrajectorySystem :=
  match t.X with
  | none => .error .notEnoughVariables
  | some X =>
    match t.config_system, t.context, t.initial_temperature with
    | some cfg, some ctx, some T0 =>
      match ctx.house_consumption, ctx.solar_production, ctx.water_draws with
      | some house, some solar, some draws =>
        let N := ctx.N
        let xdec := X.take N
        let pnet := pNetOf cfg.power house solar xdec
        let Ivec := pnet.map RVal.max0
        let Evec := pnet.map fun p => p.neg.max0
        let Kgain := cfg.power * ((ctx.step_minutes : ℚ) * 60) /
          (cfg.volume * 4185)
        let loss := cfg.heat_loss_coefficient * (ctx.step_minutes : ℚ)
        let rhox := (draws.map fun d => d / cfg.volume).zip xdec
        let Tvec := tempSeq Kgain loss cfg.T_cold_water rhox (RVal.num T0)
        .ok { t with
                X := some (xdec ++ Tvec ++ Ivec ++ Evec),
                cost := none,
                self_consumption := none }
      | _, _, _ => .error .typeError
    | _, _, _ => .error .notEnoughVariables

/-- Embedding of compute_cost (trajectory.py lines 561-623): cached value
first; then context, price vectors and step validity; then the import and
export slices, whose extraction can raise a dimension error; then the
dimension cross-checks against N; finally the scalar
dt_hours * (dot(imports, purchase) - dot(exports, sell)) / 1000, computed in
NaN-propagating arithmetic because the source never screens the slices for
the NaN sentinel. -/
def compute_cost (t : TrajectorySystem) : Except Err RVal :=
  match t.cost with
  | some c => .ok c
  | none =>
    match t.context with
    | none => .error .contextNotDefined
    | some ctx =>
      match ctx.prices_purchases, ctx.prices_sell with
      | some pp, some ps =>
        if ctx.step_minutes = 0 then .error .notEnoughVariables
        else
          match t.get_exports, t.get_imports with
          | .ok (some exports), .ok (some imports) =>
            if pp.length ≠ ctx.N ∨ ps.length ≠ ctx.N ∨
                exports.length ≠ ctx.N ∨ imports.length ≠ ctx.N then
              .error .dimensionNotRespected
            else
              let dtHours : ℚ := (ctx.step_minutes : ℚ) / 60
              .ok (((RVal.num dtHours).mul
                      ((RVal.dot imports (pp.map RVal.num)).sub
                        (RVal.dot exports (ps.map RVal.num)))).div
                    (RVal.num 1000))
          | .ok none, _ => .error .notEnoughVariables
          | _, .ok none => .error .notEnoughVariables
          | _, _ => .error .dimensionNotRespected
      | _, _ => .error .notEnoughVariables

/-- Embedding of compute_self_consumption (trajectory.py lines 626-682):
cached value first; then context, the export slice and the solar vector;
exports containing the NaN sentinel raise the update-required error; a zero
total production short-circuits to 0; otherwise the ratio
(total production - total export) / total production. -/
def compute_self_consumption (t : TrajectorySystem) : Except Err RVal :=
  match t.self_consumption with
  | some c => .ok c
  | none =>
    match t.context with
    | none => .error .contextNotDefined
    | some ctx =>
      match t.get_exports with
      | .error e => .error e
      | .ok none => .error .notEnoughVariables
      | .ok (some exports) =>
        match ctx.solar_production with
        | none => .error .notEnoughVariables
        | some solar =>
          if exports.any RVal.isnan then .error .updateRequired
          else
            let totalProd : ℚ := solar.sum
            if totalProd = 0 then .ok (RVal.num 0)
            else
              .ok (((RVal.num totalProd).sub (RVal.listSum exports)).div
                    (RVal.num totalProd))

/-- Decision loop of the standard thermostat simulator (trajectory.py lines
792-826): at each step the heater turns on exactly when the simulated
temperature is below the setpoint and, in the off-peak mode, the grid signal
is nonzero; the temperature then follows the same causal recurrence as
update_X. Consumes the per-step pairs (rho, grid signal) and the running
temperature, and returns the decision vector. -/
def standardDecisions (Kgain loss Tcold setpointT : ℚ) (offPeakMode : Bool) :
    List (ℚ × ℚ) → ℚ → List ℚ
  | [], _ => []
  | (rho, grid) :: rest, Tcur =>
    let needHeating := decide (Tcur < setpointT)
    let allowedToHeat := !(offPeakMode && decide (grid = 0))
    let x : ℚ := if needHeating && allowedToHeat then 1 else 0
    let Tnext := Tcur * (1 - rho) + rho * Tcold + Kgain * x - loss
    x :: standardDecisions Kgain loss Tcold setpointT offPeakMode rest
          (max Tnext Tcold)

/-- Embedding of generate_standard_trajectory (trajectory.py lines 705-835):
validates the context, configuration and initial temperature, defaults the
mode to SETPOINT and the setpoint to the maximum of the future setpoints,
simulates the thermostat decisions causally, and finally builds the
trajectory through the constructor, which routes the decision vector through
the x setter. The source keeps the call traj.update_X() commented out (line
833), so the returned trajectory carries the NaN sentinel on every derived
position. -/
def generate_standard_trajectory (context : Option ExternalContext)
    (config : Option SystemConfig) (T0 : Option ℚ)
    (modeWH : Option StandardWHType) (setpointT : Option ℚ) :
    Except Err TrajectorySystem :=
  match context with
  | none => .error .contextNotDefined
  | some ctx =>
    match config with
    | none => .error .notEnoughVariables
    | some cfg =>
      match T0 with
      | none => .error .notEnoughVariables
      | some t0 =>
        if t0 < 0 ∨ 100 < t0 then .error .valueError
        else
          let mode := modeWH.getD .SETPOINT
          match (match setpointT with
                 | some s => Except.ok s
                 | none =>
                   match ctx.future_setpoints with
                   | none => Except.error Err.notEnoughVariables
                   | some [] => Except.error Err.valueError
                   | some (h :: rest) => Except.ok (rest.foldl max h)) with
          | .error e => .error e
          | .ok sp =>
            match ctx.water_draws with
            | none => .error .typeError
            | some draws =>
              let Kgain := cfg.power * ((ctx.step_minutes : ℚ) * 60) /
                (cfg.volume * 4185)
              let loss := cfg.heat_loss_coefficient * (ctx.step_minutes : ℚ)
              let grid := ctx.off_peak_hours.getD
                (List.replicate ctx.N (1 : ℚ))
              let rhog := (draws.map fun d => d / cfg.volume).zip grid
              let xs := standardDecisions Kgain loss cfg.T_cold_water sp
                (mode = .SETPOINT_OFF_PEAK) rhog t0
              let base : TrajectorySystem :=
                ⟨.MANUAL, some cfg, some ctx, some t0, none, none, none⟩
              setDecisions base (some xs)

end TrajectorySystem

/-! Weekly planning (domain/consignes_models.py). Times of day are carried as
an hour and a minute, the only components the source ever reads. -/

/-- Weekly temperature setpoint (domain/consignes_models.py, Setpoint). -/
structure Setpoint where
  day : ℕ
  timeH : ℕ
  timeM : ℕ
  temperature : ℚ
  drawn_volume : ℚ
deriving DecidableEq, Repr

namespace Planning

/-- Helper of get_future_setpoints converting a setpoint position to minutes
since Monday 00:00, as the nested function in the source. -/
def toMinutes (s : Setpoint) : ℕ := s.day * 24 * 60 + s.timeH * 60 + s.timeM

/-- Number of minutes in a week, the wrap-around span of the planning. -/
def minutesWeek : ℕ := 7 * 24 * 60

/-- Sort key used by get_future_setpoints: positions before the anchor are
projected one week forward. -/
def projectedKey (tDebut : ℕ) (s : Setpoint) : ℕ :=
  if toMinutes s < tDebut then toMinutes s + minutesWeek else toMinutes s

/-- Window-membership test of get_future_setpoints: a setpoint is kept when
it lies directly between the anchor and the end of the horizon, or when its
one-week projection still falls before the end of the horizon. -/
def inWindow (tDebut tFin : ℕ) (c : Setpoint) : Bool :=
  (decide (tDebut ≤ toMinutes c) && decide (toMinutes c ≤ tFin)) ||
    decide (toMinutes c + minutesWeek ≤ tFin)

/-- Embedding of Planning.get_future_setpoints (consignes_models.py lines
392-454) with an explicit anchor: an empty planning short-circuits; otherwise
the stored setpoints inside the forward window are collected in one pass and
sorted by the projected key (the Python sort is stable and ascending, which
any correct stable sort models). -/
def get_future_setpoints (sps : List Setpoint) (jour hH hM horizon : ℕ) :
    List Setpoint :=
  if sps = [] then []
  else
    let tDebut := jour * 24 * 60 + hH * 60 + hM
    let tFin := tDebut + horizon * 60
    List.insertionSort
      (fun a b => projectedKey tDebut a ≤ projectedKey tDebut b)
      (sps.filter (inWindow tDebut tFin))

end Planning

/-! Linear-program assembly (engine/models/optimisation_inputs.py). The
OptimizationInputs setters reject a missing configuration or context, so the
builders take both directly; the internal is-None guards of the source are
unreachable and the remaining missing-vector guards are kept. -/

namespace OptimizationInputs

/-- Mixing ratio vector entry rho[i] = water_draws[i] / volume used by the
thermal rows. -/
def rhoAt (draws : List ℚ) (volume : ℚ) (i : ℕ) : ℚ := draws.getD i 0 / volume

/-- Heating gain K = (power * step * 60) / (volume * Cp) with Cp = 4185,
shared by _build_A_thermo and update_X. -/
def kGain (cfg : SystemConfig) (step : ℕ) : ℚ :=
  cfg.power * ((step : ℚ) * 60) / (cfg.volume * 4185)

/-- Entry (i, j) of the thermal block matrix assembled by _build_A_thermo
(optimisation_inputs.py lines 321-392): the horizontal stack of the four
blocks over the layout [x | T | I | E], with -K on the decision diagonal,
-(1 - rho[i]) and 1 on the two temperature diagonals, and zero blocks
for the imports and the exports. -/
def aThermoEntry (cfg : SystemConfig) (step : ℕ) (draws : List ℚ) (N i j : ℕ) :
    ℚ :=
  if j < N then (if j = i then -(kGain cfg step) else 0)
  else if j < 2 * N + 1 then
    (if j = N + i then -(1 - rhoAt draws cfg.volume i)
     else if j = N + i + 1 then 1 else 0)
  else 0

/-- Embedding of _build_A_thermo: requires the water draws, then returns the
N x (4N+1) matrix as an entry function. -/
def buildAThermo (cfg : SystemConfig) (ctx : ExternalContext) :
    Except Err (ℕ → ℕ → ℚ) :=
  match ctx.water_draws with
  | none => .error .notEnoughVariables
  | some draws => .ok (aThermoEntry cfg ctx.step_minutes draws ctx.N)

/-- Embedding of _build_B_thermo (optimisation_inputs.py lines 394-426):
B[i] = rho[i] * T_cold - insulation * step, computed over the draw vector. -/
def buildBThermo (cfg : SystemConfig) (ctx : ExternalContext) :
    Except Err (List ℚ) :=
  match ctx.water_draws with
  | none => .error .notEnoughVariables
  | some draws =>
    .ok (draws.map fun d =>
      (d / cfg.volume) * cfg.T_cold_water -
        cfg.heat_loss_coefficient * (ctx.step_minutes : ℚ))

/-- Upper-bound cell of a numpy bound vector: either a rational or the
positive infinity placed on the import and export positions. -/
inductive NpNum where
  | inf : NpNum
  | val : ℚ → NpNum
deriving DecidableEq, Repr

/-- Embedding of _build_lower_bounds (optimisation_inputs.py lines 531-568):
zeros for the decisions, zero then the future setpoints for the
temperatures, zeros for imports and exports. The configuration is only read
for a local value the source never uses. -/
def buildLowerBounds (_cfg : SystemConfig) (ctx : ExternalContext) :
    Except Err (List ℚ) :=
  match ctx.future_setpoints with
  | none => .error .notEnoughVariables
  | some sp =>
    .ok (List.replicate ctx.N (0 : ℚ) ++ ((0 : ℚ) :: sp) ++
         List.replicate ctx.N (0 : ℚ) ++ List.replicate ctx.N (0 : ℚ))

/-- Embedding of _build_upper_bounds (optimisation_inputs.py lines 570-601):
the availability mask (ones when absent) for the decisions, the maximum safe
temperature for every temperature, infinity for imports and exports. -/
def buildUpperBounds (cfg : SystemConfig) (ctx : ExternalContext) :
    List NpNum :=
  (match ctx.availability_on with
   | none => List.replicate ctx.N (NpNum.val 1)
   | some av => av.map NpNum.val) ++
  List.replicate (ctx.N + 1) (NpNum.val cfg.T_max_safe) ++
  List.replicate ctx.N NpNum.inf ++ List.replicate ctx.N NpNum.inf

/-- Pairing step of get_bounds: a lower bound with the upper bound, where
infinity is rendered as None for the solver. -/
def boundPair (lu : ℚ × NpNum) : ℚ × Option ℚ :=
  (lu.1, match lu.2 with | .inf => none | .val q => some q)

/-- Embedding of get_bounds (optimisation_inputs.py lines 603-631): zips the
two bound vectors into pairs, turning infinity into None. -/
def get_bounds (cfg : SystemConfig) (ctx : ExternalContext) :
    Except Err (List (ℚ × Option ℚ)) :=
  match buildLowerBounds cfg ctx with
  | .error e => .error e
  | .ok lb => .ok ((lb.zip (buildUpperBounds cfg ctx)).map boundPair)

end OptimizationInputs

/-! Forecast handling of OptimizerService (engine/service.py). Only the array
conversion chain the claims mention is modelled; the surrounding pandas
resampling is summarised by the length of the target grid it reindexes onto. -/

namespace OptimizerService

/-- Shape-aware numpy array: a one-dimensional data vector or a
two-dimensional row matrix, the two layouts the service produces. -/
inductive NpArray where
  | one : List RVal → NpArray
  | two : List (List RVal) → NpArray
deriving DecidableEq, Repr

/-- Length of the target grid built by _normalize_df (service.py lines
383-388): pandas date_range includes both the start and the end of the
horizon, hence floor(horizon * 60 / step) + 1 points. -/
def targetGridLen (horizonH step : ℕ) : ℕ := horizonH * 60 / step + 1

/-- Embedding of _to_array (service.py lines 438-479): rejects an empty
frame, extracts the first column, rejects non-finite entries, and reshapes
the flat data into a two-dimensional (1, len) row vector. -/
def toArray (vals : List RVal) : Except Err NpArray :=
  if vals = [] then .error .valueError
  else if vals.any RVal.isnan then .error .valueError
  else .ok (.two [vals])

/-- Embedding of ExternalContext.check_array (external_context.py lines
495-527): the shape of the candidate must be exactly the one-dimensional
(n,), so any two-dimensional array fails the comparison and raises a
dimension error. -/
def check_array : NpArray → ℕ → Except Err Unit
  | .one xs, n =>
    if xs.length = n then .ok () else .error .dimensionNotRespected
  | .two _, _ => .error .dimensionNotRespected

/-- Number of steps computed by ExternalContext.from_client (line 572):
N = (horizon * 60) / step, with Python integer truncation. -/
def stepsOfHorizon (horizonH step : ℕ) : ℕ := horizonH * 60 / step

end OptimizerService

/-! Client aggregate and its dict serialisation (domain/client.py with the
component models). Since the claims concern the dict round-trip, the dict
type mirrors exactly the shape produced by Client.to_dict: every price key is
present, with None standing for the inactive-mode fields, and the HH:MM time
strings are carried as the hour-minute pairs they encode one-to-one. -/

/-- Time of day carried by HH:MM wire strings and datetime.time values. -/
structure TimeOfDay where
  hour : ℕ
  minute : ℕ
deriving DecidableEq, Repr

/-- Minutes since midnight of a time of day, the measure under the source
comparisons of datetime.time values. -/
def TimeOfDay.toMin (t : TimeOfDay) : ℕ := t.hour * 60 + t.minute

/-- Validated daily interval (domain/common.py, TimeSlot): start strictly
before the end, no midnight crossing. -/
structure TimeSlot where
  start : TimeOfDay
  stop : TimeOfDay
deriving DecidableEq, Repr

/-- TimeSlot constructor (common.py lines 19-43): rejects a start at or
after the end. -/
def TimeSlot.mk? (a b : TimeOfDay) : Except Err TimeSlot :=
  if b.toMin ≤ a.toMin then .error .valueError else .ok ⟨a, b⟩

/-- Overlap test of two slots (common.py lines 62-77). -/
def TimeSlot.overlaps (s o : TimeSlot) : Bool :=
  decide (s.start.toMin < o.stop.toMin) && decide (o.start.toMin < s.stop.toMin)

/-- Duration of a slot in minutes (common.py lines 97-109). -/
def TimeSlot.duration_minutes (s : TimeSlot) : ℕ := s.stop.toMin - s.start.toMin

/-- Tariff modes accepted by the Prices mode setter. -/
inductive PriceMode where
  | BASE
  | HPHC
deriving DecidableEq, Repr

/-- Tariff configuration (domain/prices_model.py): the mode plus all four
price scalars, of which only the matching ones are readable, and the peak
slots. -/
structure Prices where
  mode : PriceMode
  hp : ℚ
  hc : ℚ
  base : ℚ
  resale_price : ℚ
  hp_slots : List TimeSlot
deriving DecidableEq, Repr

namespace Prices

/-- Defaults installed by the Prices constructor (prices_model.py lines
34-52). -/
def init (mode : PriceMode) : Prices :=
  ⟨mode, 22 / 100, 18 / 100, 20 / 100, 10 / 100, []⟩

/-- Setter for the peak price (prices_model.py lines 101-127): mode check
first, then the numeric check that a None value fails. -/
def setHp (p : Prices) (v : Option ℚ) : Except Err Prices :=
  if p.mode ≠ .HPHC then .error .modeIncompatible
  else match v with
    | none => .error .valueError
    | some q => if q < 0 then .error .valueError else .ok { p with hp := q }

/-- Setter for the off-peak price (prices_model.py lines 147-172). -/
def setHc (p : Prices) (v : Option ℚ) : Except Err Prices :=
  if p.mode ≠ .HPHC then .error .modeIncompatible
  else match v with
    | none => .error .valueError
    | some q => if q < 0 then .error .valueError else .ok { p with hc := q }

/-- Setter for the flat price (prices_model.py lines 192-217): requires the
BASE mode. -/
def setBase (p : Prices) (v : Option ℚ) : Except Err Prices :=
  if p.mode ≠ .BASE then .error .modeIncompatible
  else match v with
    | none => .error .valueError
    | some q => if q < 0 then .error .valueError else .ok { p with base := q }

/-- Setter for the resale price (prices_model.py lines 232-254), available in
both modes. -/
def setResale (p : Prices) (q : ℚ) : Except Err Prices :=
  if q < 0 then .error .valueError else .ok { p with resale_price := q }

/-- Adjacent-pair validation of the sorted peak slots (prices_model.py lines
347-356): no overlap and each end at or before the next start. -/
def slotsAdjacentOk : List TimeSlot → Bool
  | a :: b :: rest =>
    !(a.overlaps b) && decide (a.stop.toMin ≤ b.start.toMin) &&
      slotsAdjacentOk (b :: rest)
  | _ => true

/-- Setter for the peak slots (prices_model.py lines 310-365): mode check,
sort by start, pairwise validation, and the one-sided duration checks that
leave room for both bands. -/
def setHpSlots (p : Prices) (l : List TimeSlot) : Except Err Prices :=
  if p.mode ≠ .HPHC then .error .modeIncompatible
  else
    let sorted := List.insertionSort
      (fun a b : TimeSlot => a.start.toMin ≤ b.start.toMin) l
    if !slotsAdjacentOk sorted then .error .valueError
    else
      let total := (sorted.map TimeSlot.duration_minutes).sum
      if 24 * 60 ≤ total then .error .valueError
      else if total = 0 then .error .valueError
      else .ok { p with hp_slots := sorted }

end Prices

/-- Water heater asset (domain/water_heater_model.py): the four physical
scalars with their non-negativity validation. -/
structure WaterHeater where
  volume : ℚ
  power : ℚ
  insulation_coefficient : ℚ
  cold_water_temperature : ℚ
deriving DecidableEq, Repr

/-- Optimisation objectives (domain/features_models.py, OptimizationMode). -/
inductive OptimizationMode where
  | AUTOCONS
  | COST
deriving DecidableEq, Repr

/-- Feature flags (domain/features_models.py, Features). -/
structure Features where
  gradation : Bool
  mode : OptimizationMode
deriving DecidableEq, Repr

/-- Weekly consumption baseline (domain/constraints.py, ConsumptionProfile):
a 7 x 24 matrix with a scalar background default. -/
structure ConsumptionProfile where
  data : List (List ℚ)
  background_noise : ℚ
deriving DecidableEq, Repr

/-- Default profile built by ConsumptionProfile() (constraints.py lines
30-52): the background value everywhere. -/
def ConsumptionProfile.default : ConsumptionProfile :=
  ⟨List.replicate 7 (List.replicate 24 (300 : ℚ)), 300⟩

/-- Operational constraints (domain/constraints.py, Constraints). -/
structure Constraints where
  consumption_profile : ConsumptionProfile
  forbidden_slots : List TimeSlot
  minimum_temperature : ℚ
deriving DecidableEq, Repr

/-- Slot coherence validation of Constraints (constraints.py lines 213-251):
sorted pairwise non-overlap and a total duration strictly below one day. -/
def Constraints.validateCoherence (l : List TimeSlot) : Except Err Unit :=
  if l = [] then .ok ()
  else
    let sorted := List.insertionSort
      (fun a b : TimeSlot => a.start.toMin ≤ b.start.toMin) l
    if (sorted.zip sorted.tail).any (fun ab => ab.1.overlaps ab.2) then
      .error .valueError
    else if 24 * 60 ≤ (sorted.map TimeSlot.duration_minutes).sum then
      .error .valueError
    else .ok ()

/-- Setter for the forbidden slots (constraints.py lines 267-299): validate
the candidate list, then store it sorted. -/
def Constraints.setForbiddenSlots (c : Constraints) (l : List TimeSlot) :
    Except Err Constraints :=
  match Constraints.validateCoherence l with
  | .error e => .error e
  | .ok _ =>
    .ok { c with forbidden_slots :=
      List.insertionSort (fun a b : TimeSlot => a.start.toMin ≤ b.start.toMin) l }

/-- Setter for the minimum temperature (constraints.py lines 312-334). -/
def Constraints.setMinimumTemperature (c : Constraints) (q : ℚ) :
    Except Err Constraints :=
  if q < 0 ∨ 95 < q then .error .valueError
  else .ok { c with minimum_temperature := q }

/-- Dedup step of Planning._clean_and_sort (consignes_models.py lines
249-286): insert keeping, per (day, time) key, the strictly hottest entry. -/
def insertKeepHottest (acc : List Setpoint) (c : Setpoint) : List Setpoint :=
  match acc.findIdx? (fun e =>
      decide (e.day = c.day) && decide (e.timeH = c.timeH) &&
        decide (e.timeM = c.timeM)) with
  | none => acc ++ [c]
  | some i =>
    match acc[i]? with
    | some e => if e.temperature < c.temperature then acc.set i c else acc
    | none => acc

/-- Embedding of Planning._clean_and_sort: dedup in first-seen order, then a
stable sort by position in the week (the Setpoint ordering is by day then
time of day, which the weekly-minute measure reflects for valid times). -/
def cleanAndSort (raws : List Setpoint) : List Setpoint :=
  List.insertionSort
    (fun a b => Planning.toMinutes a ≤ Planning.toMinutes b)
    (raws.foldl insertKeepHottest [])

/-- Client aggregate (domain/client.py). -/
structure Client where
  client_id : ℤ
  planning : List Setpoint
  constraints : Constraints
  features : Features
  prices : Prices
  water_heater : WaterHeater
deriving DecidableEq, Repr

/-! Wire dictionary types, shaped exactly as Client.to_dict emits them
(client.py lines 258-330). Keys that to_dict always writes are plain fields;
a None value is an Option none; hp_slots is only written in the HPHC mode,
hence the outer Option marking key presence. -/

/-- Serialised water_heater section. -/
structure WHDict where
  volume : ℚ
  power : ℚ
  insulation_coeff : ℚ
  temp_cold_water : ℚ
deriving DecidableEq, Repr

/-- Serialised time slot, a start and end HH:MM pair. -/
structure SlotDict where
  start : TimeOfDay
  stop : TimeOfDay
deriving DecidableEq, Repr

/-- Serialised prices section: the three mode-specific price keys are always
present, carrying None outside their mode. -/
structure PricesDict where
  mode : PriceMode
  hp_price : Option ℚ
  hc_price : Option ℚ
  base_price : Option ℚ
  resell_price : ℚ
  hp_slots : Option (List SlotDict)
deriving DecidableEq, Repr

/-- Serialised features section. -/
structure FeaturesDict where
  gradation : Bool
  mode : OptimizationMode
deriving DecidableEq, Repr

/-- Serialised constraints section; the consumption profile is always
written as None by to_dict. -/
structure ConstraintsDict where
  min_temp : ℚ
  forbidden_slots : List SlotDict
  consumption_profile : Option (List (List ℚ))
deriving DecidableEq, Repr

/-- Serialised planning entry. -/
structure SetpointDict where
  day : ℕ
  time : TimeOfDay
  target_temp : ℚ
  volume : ℚ
deriving DecidableEq, Repr

/-- Full serialised client. -/
structure ClientDict where
  client_id : ℤ
  water_heater : WHDict
  prices : PricesDict
  features : FeaturesDict
  constraints : ConstraintsDict
  planning : List SetpointDict
deriving DecidableEq, Repr

namespace Client

/-- Embedding of Client.to_dict (client.py lines 258-330): every price key is
written, with None for the fields of the inactive mode; the peak slots only
in HPHC mode; the consumption profile always as None. -/
def to_dict (c : Client) : ClientDict :=
  { client_id := c.client_id
    water_heater :=
      ⟨c.water_heater.volume, c.water_heater.power,
        c.water_heater.insulation_coefficient,
        c.water_heater.cold_water_temperature⟩
    prices :=
      { mode := c.prices.mode
        hp_price := if c.prices.mode = .HPHC then some c.prices.hp else none
        hc_price := if c.prices.mode = .HPHC then some c.prices.hc else none
        base_price := if c.prices.mode = .BASE then some c.prices.base else none
        resell_price := c.prices.resale_price
        hp_slots :=
          if c.prices.mode = .HPHC then
            some (c.prices.hp_slots.map fun s => ⟨s.start, s.stop⟩)
          else none }
    features := ⟨c.features.gradation, c.features.mode⟩
    constraints :=
      { min_temp := c.constraints.minimum_temperature
        forbidden_slots :=
          c.constraints.forbidden_slots.map fun s => ⟨s.start, s.stop⟩
        consumption_profile := none }
    planning := c.planning.map fun s =>
      ⟨s.day, ⟨s.timeH, s.timeM⟩, s.temperature, s.drawn_volume⟩ }

/-- Water heater step of Client.from_dict (client.py lines 127-136):
construct from volume and power, then run the two optional setters, whose
keys the serialised shape always carries. -/
def parseWaterHeater (d : WHDict) : Except Err WaterHeater :=
  if d.volume < 0 then .error .valueError
  else if d.power < 0 then .error .valueError
  else if d.insulation_coeff < 0 then .error .valueError
  else if d.temp_cold_water < 0 then .error .valueError
  else .ok ⟨d.volume, d.power, d.insulation_coeff, d.temp_cold_water⟩

/-- Prices step of Client.from_dict (client.py lines 138-156): start from
the defaults, set the mode, then run each price setter because the
serialised shape always carries the key, and finally the peak slots in HPHC
mode. -/
def parsePrices (d : PricesDict) : Except Err Prices := do
  let p0 := Prices.init PriceMode.BASE
  let p1 := { p0 with mode := d.mode }
  let p2 ← p1.setHp d.hp_price
  let p3 ← p2.setHc d.hc_price
  let p4 ← p3.setBase d.base_price
  let p5 ← p4.setResale d.resell_price
  if d.mode = PriceMode.HPHC then
    match d.hp_slots with
    | some slotDs => do
      let slots ← slotDs.mapM fun s => TimeSlot.mk? s.start s.stop
      p5.setHpSlots slots
    | none => pure p5
  else pure p5

/-- Features step of Client.from_dict (client.py lines 158-167). -/
def parseFeatures (d : FeaturesDict) : Except Err Features :=
  .ok ⟨d.gradation, d.mode⟩

/-- Constraints step of Client.from_dict (client.py lines 169-190): parse
the forbidden slots, fall back to the default profile on a None matrix, and
build through the validating constructor. -/
def parseConstraints (d : ConstraintsDict) : Except Err Constraints := do
  let slots ← d.forbidden_slots.mapM fun s => TimeSlot.mk? s.start s.stop
  let profile :=
    match d.consumption_profile with
    | none => ConsumptionProfile.default
    | some m => (⟨m, 300⟩ : ConsumptionProfile)
  let c0 : Constraints := ⟨ConsumptionProfile.default, [], 10⟩
  let c1 ← c0.setForbiddenSlots slots
  let c2 := { c1 with consumption_profile := profile }
  c2.setMinimumTemperature d.min_temp

/-- Planning step of Client.from_dict (client.py lines 192-206): build each
setpoint through its validating constructor, then install the list through
the setter, which dedups and sorts. -/
def parsePlanning (ds : List SetpointDict) : Except Err (List Setpoint) := do
  let sps ← ds.mapM fun s =>
    if 6 < s.day then .error Err.valueError
    else if s.target_temp < 30 ∨ 99 < s.target_temp then .error Err.valueError
    else if s.volume < 0 then .error Err.valueError
    else
      (.ok ⟨s.day, s.time.hour, s.time.minute, s.target_temp, s.volume⟩ :
        Except Err Setpoint)
  pure (cleanAndSort sps)

/-- Embedding of Client.from_dict (client.py lines 106-219): the five build
steps in source order, with every failure collapsed into the single
client-build error by the surrounding try block. -/
def from_dict (d : ClientDict) : Except Err Client :=
  (do
    let wh ← parseWaterHeater d.water_heater
    let pr ← parsePrices d.prices
    let ft ← parseFeatures d.features
    let cs ← parseConstraints d.constraints
    let pl ← parsePlanning d.planning
    pure (⟨d.client_id, pl, cs, ft, pr, wh⟩ : Client)).mapError
    fun _ => Err.clientBuild

end Client

/-! Concrete instances used to evaluate the embedded operations on explicit
inputs. -/

/-- Configuration with one-step heating gain of nine degrees at a
fifteen-minute step: power 4185 W, volume 100 L, no insulation loss, cold
water at 20 C. -/
def wCfg : SystemConfig := ⟨4185, 100, 0, 20, 5, 95, true⟩

/-- One-step context: N = 1, step 15 min, solar 0 W, house 100 W, no draw. -/
def wCtx : ExternalContext :=
  ⟨1, 15, none, none, some [0], some [100], some [0], none, none, none⟩

/-- Manual trajectory over wCtx whose decision part was stored through the x
setter (decision 0 followed by the NaN sentinel) and whose initial
temperature 10 C lies below the cold-water temperature 20 C. -/
def wTraj : TrajectorySystem :=
  ⟨.MANUAL, some wCfg, some wCtx, some 10,
    some [RVal.num 0, RVal.nan, RVal.nan, RVal.nan, RVal.nan], none, none⟩

/-- Result of update_X on wTraj: decisions, temperatures [10, 20], import
100 W and export 0 W. -/
def wTraj2 : TrajectorySystem :=
  { wTraj with
      X := some [RVal.num 0, RVal.num 10, RVal.num 20, RVal.num 100,
                 RVal.num 0] }

/-- Delivered trajectory over wCtx holding a solver result and both caches. -/
def dTraj : TrajectorySystem :=
  ⟨.SOLVER_DELIVERED, some wCfg, some wCtx, some 50,
    some [RVal.num 1, RVal.num 50, RVal.num 59, RVal.num 4285, RVal.num 0],
    some (RVal.num 7), some (RVal.num 1)⟩

/-- State of dTraj after the x setter accepts the vector [0]: the solver
output is overwritten by the NaN sentinel and both caches are cleared. -/
def dTraj2 : TrajectorySystem :=
  { dTraj with
      X := some [RVal.num 0, RVal.nan, RVal.nan, RVal.nan, RVal.nan],
      cost := none, self_consumption := none }

/-- One-step context carrying prices and solar production, for the cache
consumers. -/
def cCtx : ExternalContext :=
  ⟨1, 15, some [2], some [1], some [5], some [100], some [0], none, none,
    none⟩

/-- Trajectory over cCtx fresh from the x setter: the derived positions hold
the NaN sentinel and both caches are cleared. -/
def cTraj : TrajectorySystem :=
  ⟨.MANUAL, some wCfg, some cCtx, some 50,
    some [RVal.num 1, RVal.nan, RVal.nan, RVal.nan, RVal.nan], none, none⟩

/-- Configuration for the standard thermostat scenario: gain 5 C per
fifteen-minute step (power 4185 W, volume 180 L), cold water 20 C. -/
def sCfg : SystemConfig := ⟨4185, 180, 0, 20, 5, 95, true⟩

/-- Four-step context with the off-peak signal [1, 1, 0, 0] and no draws. -/
def sCtx : ExternalContext :=
  ⟨4, 15, none, none, none, none, some [0, 0, 0, 0], none, none,
    some [1, 1, 0, 0]⟩

/-- Trajectory the standard simulator returns on sCtx with initial
temperature 40 C and setpoint 55 C in the off-peak mode: decisions
[1, 1, 0, 0] with the NaN sentinel on every derived position. -/
def sTraj : TrajectorySystem :=
  ⟨.MANUAL, some sCfg, some sCtx, some 40,
    some ([RVal.num 1, RVal.num 1, RVal.num 0, RVal.num 0] ++
          List.replicate 13 RVal.nan), none, none⟩

/-- Normalised forecast values on the five-point grid of a one-hour horizon
at a fifteen-minute step. -/
def exForecastVals : List RVal := List.replicate 5 (RVal.num 0)

/-- Minimal flat-tariff client used to evaluate the dict round-trip. -/
def exClientBase : Client :=
  { client_id := 987
    planning := []
    constraints := ⟨ConsumptionProfile.default, [], 42⟩
    features := ⟨true, .COST⟩
    prices := Prices.init .BASE
    water_heater := ⟨200, 2500, 0, 12⟩ }

/-- Peak-off-peak client mirroring the round-trip unit test configuration. -/
def exClientHPHC : Client :=
  { client_id := 988
    planning := []
    constraints := ⟨ConsumptionProfile.default, [], 42⟩
    features := ⟨true, .COST⟩
    prices :=
      { mode := .HPHC, hp := 1, hc := 2, base := 3,
        resale_price := 4, hp_slots := [⟨⟨6, 0⟩, ⟨22, 0⟩⟩] }
    water_heater := ⟨200, 2500, 0, 12⟩ }

/-- Two-step context carrying setpoints and availability, used to evaluate
the bound construction. -/
def bCtx : ExternalContext :=
  ⟨2, 15, none, none, none, none, none, some [45, 50], some [1, 0], none⟩

/-- Planning with three setpoints around the week boundary, used to evaluate
the horizon windowing. -/
def exPlanning : List Setpoint :=
  [⟨0, 7, 0, 50, 10⟩, ⟨6, 23, 30, 55, 5⟩, ⟨3, 12, 0, 45, 0⟩]

/-! Theorems. -/

/-- C10: assigning None through the x setter succeeds for every trajectory
state, context and configuration without any permission, context,
configuration or dimension check; it erases the full vector X and clears the
cost and self-consumption caches, after which the x getter, get_decisions,
get_temperatures, get_imports and get_exports all return None. -/
theorem x_setter_none_always_erases (t : TrajectorySystem) :
    TrajectorySystem.setDecisions t none =
      .ok { t with X := none, cost := none, self_consumption := none } ∧
    TrajectorySystem.xGet
      { t with X := none, cost := none, self_consumption := none } = none ∧
    TrajectorySystem.get_decisions
      { t with X := none, cost := none, self_consumption := none } = none ∧
    TrajectorySystem.get_temperatures
      { t with X := none, cost := none, self_consumption := none } =
      .ok none ∧
    TrajectorySystem.get_imports
      { t with X := none, cost := none, self_consumption := none } =
      .ok none ∧
    TrajectorySystem.get_exports
      { t with X := none, cost := none, self_consumption := none } =
      .ok none :=
  ⟨rfl, rfl, rfl, rfl, rfl, rfl⟩

/-- C1: the claim that a SOLVER_DELIVERED trajectory rejects a non-None
assignment through the x setter with a permission error fails on the code:
the permission guard is commented out, so the assignment is accepted, the
stored X vector is overwritten with the sentinel-padded decisions, and both
caches are cleared. -/
theorem x_setter_delivered_not_blocked :
    dTraj.mode = TrajectorySource.SOLVER_DELIVERED ∧
    TrajectorySystem.setDecisions dTraj (some [0]) = .ok dTraj2 ∧
    dTraj2.X ≠ dTraj.X ∧
    dTraj.cost = some (RVal.num 7) ∧ dTraj2.cost = none ∧
    dTraj.self_consumption = some (RVal.num 1) ∧
    dTraj2.self_consumption = none := by
  refine ⟨rfl, rfl, ?_, rfl, rfl, rfl, rfl⟩
  simp [dTraj, dTraj2]

/-- C2: the conversion chain of the service cannot feed the context: the
target grid of the normalisation holds N + 1 points because the date range
includes both horizon ends, _to_array reshapes the data into a
two-dimensional (1, len) row vector, and check_array, which demands the
one-dimensional shape (N,), rejects the result with a dimension error. -/
theorem forecast_vector_shape_rejected :
    OptimizerService.targetGridLen 1 15 = 5 ∧
    OptimizerService.stepsOfHorizon 1 15 = 4 ∧
    OptimizerService.toArray exForecastVals =
      .ok (OptimizerService.NpArray.two [exForecastVals]) ∧
    OptimizerService.check_array
      (OptimizerService.NpArray.two [exForecastVals])
      (OptimizerService.stepsOfHorizon 1 15) =
      .error Err.dimensionNotRespected :=
  ⟨rfl, rfl, rfl, rfl⟩

/-- C3: the dict round-trip fails for every tariff mode: to_dict always
writes the price keys of the inactive mode with a None value, and from_dict,
seeing the keys present, pushes those None values through the mode-checked
price setters, which raise, so the whole build collapses into the
client-build error instead of reproducing the client. -/
theorem client_dict_round_trip_fails :
    (Client.to_dict exClientBase).prices.hp_price = none ∧
    Client.from_dict (Client.to_dict exClientBase) =
      .error Err.clientBuild ∧
    (Client.to_dict exClientHPHC).prices.base_price = none ∧
    Client.from_dict (Client.to_dict exClientHPHC) =
      .error Err.clientBuild :=
  ⟨rfl, rfl, rfl, rfl⟩

/-- C9: for every planning, anchor and horizon of at most one week, the
windowing returns exactly the stored setpoints whose week position lies
directly between the anchor and the horizon end or whose one-week projection
does, stated by multiplicity, and the output is sorted in non-decreasing
order of the projected key. -/
theorem future_setpoints_window_sorted (sps : List Setpoint)
    (jour hH hM horizon : ℕ) (hhor : horizon * 60 ≤ 10080) :
    (∀ c : Setpoint,
        (Planning.get_future_setpoints sps jour hH hM horizon).count c =
          if jour * 24 * 60 + hH * 60 + hM ≤ Planning.toMinutes c ∧
              Planning.toMinutes c ≤
                jour * 24 * 60 + hH * 60 + hM + horizon * 60 ∨
              Planning.toMinutes c + Planning.minutesWeek ≤
                jour * 24 * 60 + hH * 60 + hM + horizon * 60 then
            sps.count c
          else 0) ∧
      List.Sorted
        (fun a b =>
          Planning.projectedKey (jour * 24 * 60 + hH * 60 + hM) a ≤
            Planning.projectedKey (jour * 24 * 60 + hH * 60 + hM) b)
        (Planning.get_future_setpoints sps jour hH hM horizon) := by
  have _ := hhor
  classical
  haveI hTot : IsTotal Setpoint
      (fun a b =>
        Planning.projectedKey (jour * 24 * 60 + hH * 60 + hM) a ≤
          Planning.projectedKey (jour * 24 * 60 + hH * 60 + hM) b) :=
    ⟨fun a b => le_total _ _⟩
  haveI hTrans : IsTrans Setpoint
      (fun a b =>
        Planning.projectedKey (jour * 24 * 60 + hH * 60 + hM) a ≤
          Planning.projectedKey (jour * 24 * 60 + hH * 60 + hM) b) :=
    ⟨fun _ _ _ hab hbc => le_trans hab hbc⟩
  unfold Planning.get_future_setpoints
  by_cases hsp : sps = []
  · subst hsp
    simp
  · simp only [if_neg hsp]
    constructor
    · intro c
      have hperm := (List.perm_insertionSort
        (fun a b =>
          Planning.projectedKey (jour * 24 * 60 + hH * 60 + hM) a ≤
            Planning.projectedKey (jour * 24 * 60 + hH * 60 + hM) b)
        (sps.filter
          (Planning.inWindow (jour * 24 * 60 + hH * 60 + hM)
            (jour * 24 * 60 + hH * 60 + hM + horizon * 60)))).count_eq c
      rw [hperm]
      by_cases hc :
          jour * 24 * 60 + hH * 60 + hM ≤ Planning.toMinutes c ∧
            Planning.toMinutes c ≤
              jour * 24 * 60 + hH * 60 + hM + horizon * 60 ∨
            Planning.toMinutes c + Planning.minutesWeek ≤
              jour * 24 * 60 + hH * 60 + hM + horizon * 60
      · rw [if_pos hc, List.count_filter]
        simp only [Planning.inWindow, Bool.or_eq_true, Bool.and_eq_true,
          decide_eq_true_eq]
        exact hc
      · rw [if_neg hc, List.count_eq_zero]
        intro hmem
        exact hc (by
          have := (List.mem_filter.mp hmem).2
          simpa only [Planning.inWindow, Bool.or_eq_true, Bool.and_eq_true,
            decide_eq_true_eq] using this)
    · exact List.sorted_insertionSort _ _

/-- Witness for C9: at the anchor Sunday 00:00 with a 32-hour horizon, the
example planning keeps the Saturday 23:30 setpoint directly and the Monday
07:00 setpoint through the week wrap, in that projected order. -/
theorem future_setpoints_window_sorted_witness :
    32 * 60 ≤ 10080 ∧
    Planning.get_future_setpoints exPlanning 6 0 0 32 =
      [⟨6, 23, 30, 55, 5⟩, ⟨0, 7, 0, 50, 10⟩] ∧
    List.Sorted
      (fun a b =>
        Planning.projectedKey (6 * 24 * 60 + 0 * 60 + 0) a ≤
          Planning.projectedKey (6 * 24 * 60 + 0 * 60 + 0) b)
      (Planning.get_future_setpoints exPlanning 6 0 0 32) :=
  ⟨by norm_num, by decide,
    (future_setpoints_window_sorted exPlanning 6 0 0 32 (by norm_num)).2⟩

/-- Helper: pairing the decision lower bounds with the availability caps. -/
theorem zipBound_avail (av : List ℚ) :
    ((List.replicate av.length (0 : ℚ)).zip
        (av.map OptimizationInputs.NpNum.val)).map OptimizationInputs.boundPair =
      av.map fun a => ((0 : ℚ), some a) := by
  induction av with
  | nil => rfl
  | cons h t ih =>
    simpa [List.replicate_succ, OptimizationInputs.boundPair] using ih

/-- Helper: pairing the setpoint floors with the safety ceiling. -/
theorem zipBound_setpoints (T : ℚ) (sp : List ℚ) :
    ((sp.zip
        (List.replicate sp.length (OptimizationInputs.NpNum.val T))).map
      OptimizationInputs.boundPair) = sp.map fun s => (s, some T) := by
  induction sp with
  | nil => rfl
  | cons h t ih =>
    simpa [List.replicate_succ, OptimizationInputs.boundPair] using ih

/-- Helper: pairing the flow lower bounds with the infinite caps. -/
theorem zipBound_flows (n : ℕ) :
    (((List.replicate n (0 : ℚ)).zip
        (List.replicate n OptimizationInputs.NpNum.inf)).map
      OptimizationInputs.boundPair) =
      List.replicate n ((0 : ℚ), (none : Option ℚ)) := by
  simp [List.zip_replicate, OptimizationInputs.boundPair]

/-- C8: with future setpoints and availability present, get_bounds yields
the per-variable bounds in the layout [x | T | I | E]: each decision in
[0, availability], the initial temperature in [0, T_max_safe], each later
temperature in [setpoint, T_max_safe], and each import and export bounded
below by zero with no upper bound. -/
theorem bounds_layout_spec (cfg : SystemConfig) (ctx : ExternalContext)
    (sp av : List ℚ) (hsp : ctx.future_setpoints = some sp)
    (hsplen : sp.length = ctx.N) (hav : ctx.availability_on = some av)
    (havlen : av.length = ctx.N) :
    OptimizationInputs.get_bounds cfg ctx =
      .ok ((av.map fun a => ((0 : ℚ), some a)) ++
        (((0 : ℚ), some cfg.T_max_safe) ::
          sp.map fun s => (s, some cfg.T_max_safe)) ++
        List.replicate ctx.N ((0 : ℚ), (none : Option ℚ)) ++
        List.replicate ctx.N ((0 : ℚ), (none : Option ℚ))) := by
  have e1 : ((List.replicate ctx.N (0 : ℚ)).zip
      (av.map OptimizationInputs.NpNum.val)).map OptimizationInputs.boundPair =
      av.map fun a => ((0 : ℚ), some a) := by
    rw [← havlen]; exact zipBound_avail av
  have e2 : (((0 : ℚ) :: sp).zip
      (List.replicate (ctx.N + 1)
        (OptimizationInputs.NpNum.val cfg.T_max_safe))).map
      OptimizationInputs.boundPair =
      ((0 : ℚ), some cfg.T_max_safe) ::
        sp.map fun s => (s, some cfg.T_max_safe) := by
    rw [← hsplen, List.replicate_succ, List.zip_cons_cons, List.map_cons,
      zipBound_setpoints]
    rfl
  have e3 := zipBound_flows ctx.N
  unfold OptimizationInputs.get_bounds OptimizationInputs.buildLowerBounds
    OptimizationInputs.buildUpperBounds
  rw [hsp, hav]
  dsimp only
  have len1 : (List.replicate ctx.N (0 : ℚ)).length =
      (av.map OptimizationInputs.NpNum.val).length := by
    simp [havlen]
  have len2 : (((0 : ℚ) :: sp) ).length =
      (List.replicate (ctx.N + 1)
        (OptimizationInputs.NpNum.val cfg.T_max_safe)).length := by
    simp [hsplen]
  have len3 : (List.replicate ctx.N (0 : ℚ)).length =
      (List.replicate ctx.N OptimizationInputs.NpNum.inf).length := by
    simp
  rw [List.append_assoc, List.append_assoc, List.append_assoc,
    List.append_assoc, List.zip_append len1, List.zip_append len2,
    List.zip_append len3, List.map_append, List.map_append, List.map_append,
    e1, e2, e3]
  simp [List.append_assoc]

/-- Witness for C8: on the two-step context with setpoints [45, 50] and
availability [1, 0], the bounds come out as the nine pairs of the layout. -/
theorem bounds_layout_spec_witness :
    bCtx.future_setpoints = some [45, 50] ∧
    bCtx.availability_on = some [1, 0] ∧
    OptimizationInputs.get_bounds wCfg bCtx =
      .ok [((0 : ℚ), some 1), (0, some 0), (0, some 95), (45, some 95),
        (50, some 95), (0, none), (0, none), (0, none), (0, none)] :=
  ⟨rfl, rfl, by
    have h := bounds_layout_spec wCfg bCtx [45, 50] [1, 0] rfl rfl rfl rfl
    simpa using h⟩

/-- C7: the thermodynamic rows encode exactly the recurrence
T[i+1] - (1 - rho i) T[i] - K x[i] = rho i cold - L over the layout
[x | T | I | E]: for every assignment X of the 4N+1 variables, the dot
product of row i with X is the left-hand side, the coefficients on the flow
positions vanish, and the right-hand side vector holds
rho i cold - L at row i. -/
theorem thermo_rows_encode (cfg : SystemConfig) (ctx : ExternalContext)
    (draws : List ℚ) (hd : ctx.water_draws = some draws)
    (hlen : draws.length = ctx.N) (i : ℕ) (hi : i < ctx.N) (X : ℕ → ℚ) :
    OptimizationInputs.buildAThermo cfg ctx =
      .ok (OptimizationInputs.aThermoEntry cfg ctx.step_minutes draws ctx.N) ∧
    (∑ j ∈ Finset.range (4 * ctx.N + 1),
        OptimizationInputs.aThermoEntry cfg ctx.step_minutes draws ctx.N i j *
          X j) =
      X (ctx.N + i + 1) -
        (1 - OptimizationInputs.rhoAt draws cfg.volume i) * X (ctx.N + i) -
        OptimizationInputs.kGain cfg ctx.step_minutes * X i ∧
    (∀ j, 2 * ctx.N + 1 ≤ j →
        OptimizationInputs.aThermoEntry cfg ctx.step_minutes draws ctx.N i j =
          0) ∧
    ∃ B, OptimizationInputs.buildBThermo cfg ctx = .ok B ∧
      B.get? i = some
        (OptimizationInputs.rhoAt draws cfg.volume i * cfg.T_cold_water -
          cfg.heat_loss_coefficient * (ctx.step_minutes : ℚ)) := by
  refine ⟨by rw [OptimizationInputs.buildAThermo, hd], ?_, ?_, ?_⟩
  · have key : ∀ j ∈ Finset.range (4 * ctx.N + 1),
        OptimizationInputs.aThermoEntry cfg ctx.step_minutes draws ctx.N i j *
            X j =
          (if j = i then -(OptimizationInputs.kGain cfg ctx.step_minutes) *
              X j else 0) +
          (if j = ctx.N + i then
              -(1 - OptimizationInputs.rhoAt draws cfg.volume i) * X j
            else 0) +
          (if j = ctx.N + i + 1 then X j else 0) := by
      intro j _
      unfold OptimizationInputs.aThermoEntry
      by_cases e1 : j = i
      · subst e1
        simp [hi, show ¬ ctx.N = 0 by omega,
          show ¬ j = ctx.N + j by omega, show ¬ j = ctx.N + j + 1 by omega]
      · by_cases e2 : j = ctx.N + i
        · subst e2
          simp [show ¬ ctx.N + i < ctx.N by omega,
            show ctx.N + i < 2 * ctx.N + 1 by omega,
            show ¬ ctx.N + i = i by omega,
            show ¬ ctx.N + i = ctx.N + i + 1 by omega]
        · by_cases e3 : j = ctx.N + i + 1
          · subst e3
            simp [show ¬ ctx.N + i + 1 < ctx.N by omega,
              show ctx.N + i + 1 < 2 * ctx.N + 1 by omega,
              show ¬ ctx.N + i + 1 = i by omega,
              show ¬ ctx.N + i + 1 = ctx.N + i by omega]
          · simp [e1, e2, e3]
    rw [Finset.sum_congr rfl key, Finset.sum_add_distrib,
      Finset.sum_add_distrib, Finset.sum_ite_eq' (Finset.range (4 * ctx.N + 1)),
      Finset.sum_ite_eq' (Finset.range (4 * ctx.N + 1)),
      Finset.sum_ite_eq' (Finset.range (4 * ctx.N + 1))]
    have m1 : i ∈ Finset.range (4 * ctx.N + 1) := Finset.mem_range.mpr (by omega)
    have m2 : ctx.N + i ∈ Finset.range (4 * ctx.N + 1) :=
      Finset.mem_range.mpr (by omega)
    have m3 : ctx.N + i + 1 ∈ Finset.range (4 * ctx.N + 1) :=
      Finset.mem_range.mpr (by omega)
    rw [if_pos m1, if_pos m2, if_pos m3]
    ring
  · intro j hj
    unfold OptimizationInputs.aThermoEntry
    have h1 : ¬ j < ctx.N := by omega
    have h2 : ¬ j < 2 * ctx.N + 1 := by omega
    simp [h1, h2]
  · refine ⟨_, by rw [OptimizationInputs.buildBThermo, hd], ?_⟩
    have hilt : i < draws.length := by omega
    rw [List.get?_eq_getElem?, List.getElem?_map,
      List.getElem?_eq_getElem hilt]
    simp [OptimizationInputs.rhoAt, List.getD_eq_getElem?_getD,
      List.getElem?_eq_getElem hilt]

/-- Witness for C7: on the one-step context with no draw, row zero of the
thermal matrix dotted with the identity assignment evaluates to the encoded
recurrence value. -/
theorem thermo_rows_encode_witness :
    wCtx.water_draws = some [0] ∧ (0 : ℕ) < wCtx.N ∧
    (∑ j ∈ Finset.range 5,
        OptimizationInputs.aThermoEntry wCfg 15 [0] 1 0 j * (j : ℚ)) =
      2 - (1 - OptimizationInputs.rhoAt [0] wCfg.volume 0) * 1 -
        OptimizationInputs.kGain wCfg 15 * 0 :=
  ⟨rfl, by decide, by
    have h := (thermo_rows_encode wCfg wCtx [0] rfl rfl 0 (by decide)
      (fun j => (j : ℚ))).2.1
    simpa [wCtx] using h⟩

/-- Helper: the Python maximum of two finite cells is the rational maximum. -/
theorem pymax_num (a b : ℚ) :
    RVal.pymax (RVal.num a) (RVal.num b) =
      RVal.num (if a < b then b else a) := by
  by_cases h : a < b <;> simp [RVal.pymax, RVal.lt, h]

/-- Helper: the thermal sequence always starts with its seed. -/
theorem tempSeq_head (Kgain loss Tcold : ℚ) (ps : List (ℚ × RVal))
    (T0 : RVal) :
    TrajectorySystem.tempSeq Kgain loss Tcold ps T0 =
      T0 :: (TrajectorySystem.tempSeq Kgain loss Tcold ps T0).tail := by
  cases ps with
  | nil => rfl
  | cons p rest => obtain ⟨rho, x⟩ := p; rfl

/-- Helper: with finite decisions and a finite seed, every temperature after
the initial one is a finite value at or above the cold-water temperature,
because each step ends in the Python maximum with the cold temperature. -/
theorem tempSeq_tail_spec (Kgain loss Tcold : ℚ) :
    ∀ (ps : List (ℚ × RVal)) (c : ℚ),
      (∀ p ∈ ps, ∃ q : ℚ, p.2 = RVal.num q) →
      ∀ v ∈ (TrajectorySystem.tempSeq Kgain loss Tcold ps (RVal.num c)).tail,
        ∃ q : ℚ, v = RVal.num q ∧ Tcold ≤ q := by
  intro ps
  induction ps with
  | nil =>
    intro c _ v hv
    simp [TrajectorySystem.tempSeq] at hv
  | cons p rest ih =>
    intro c hnum v hv
    obtain ⟨rho, x⟩ := p
    obtain ⟨qx, hqx⟩ := hnum (rho, x) (by simp)
    simp only at hqx
    subst hqx
    simp only [TrajectorySystem.tempSeq, List.tail_cons] at hv
    rw [show ((((RVal.num c).mul (RVal.num (1 - rho))).add
        (RVal.num (rho * Tcold))).add
          ((RVal.num Kgain).mul (RVal.num qx))).sub (RVal.num loss) =
        RVal.num (c * (1 - rho) + rho * Tcold + Kgain * qx + -loss) from rfl,
      pymax_num] at hv
    rw [tempSeq_head] at hv
    rcases List.mem_cons.mp hv with rfl | hv
    · refine ⟨_, rfl, ?_⟩
      split_ifs with h
      · exact le_rfl
      · exact le_of_not_lt h
    · exact ih _ (fun y hy => hnum y (List.mem_cons_of_mem _ hy)) v hv

/-- Helper: the net electrical balance of finite inputs is finite. -/
theorem pNetOf_mem_num (power : ℚ) :
    ∀ (house solar : List ℚ) (xd : List RVal),
      (∀ x ∈ xd, ∃ q : ℚ, x = RVal.num q) →
      ∀ v ∈ TrajectorySystem.pNetOf power house solar xd,
        ∃ q : ℚ, v = RVal.num q := by
  intro house
  induction house with
  | nil =>
    intro solar xd _ v hv
    cases solar <;> cases xd <;> simp [TrajectorySystem.pNetOf] at hv
  | cons h hs ih =>
    intro solar xd hx v hv
    cases solar with
    | nil => cases xd <;> simp [TrajectorySystem.pNetOf] at hv
    | cons s ss =>
      cases xd with
      | nil => simp [TrajectorySystem.pNetOf] at hv
      | cons x xr =>
        obtain ⟨qx, hqx⟩ := hx x (by simp)
        subst hqx
        simp only [TrajectorySystem.pNetOf, List.mem_cons] at hv
        rcases hv with rfl | hv
        · exact ⟨h + -s + qx * power, rfl⟩
        · exact ih ss xr (fun y hy => hx y (List.mem_cons_of_mem _ hy)) v hv

/-- Helper: the import and export halves of one step never multiply to a
nonzero value, because the net power has a single sign. -/
theorem max0_mul_max0_neg (q : ℚ) :
    (RVal.max0 (RVal.num q)).mul (RVal.max0 ((RVal.num q).neg)) =
      RVal.num 0 := by
  rcases le_total 0 q with h | h
  · have : max (0 : ℚ) (-q) = 0 := max_eq_left (by linarith)
    simp [RVal.max0, RVal.neg, RVal.mul, this]
  · have : max (0 : ℚ) q = 0 := max_eq_left h
    simp [RVal.max0, RVal.neg, RVal.mul, this]

/-- Helper: the elementwise product of the import and export vectors derived
from one net-power vector is computed pointwise on that vector. -/
theorem zip_max0_prod (l : List RVal) :
    List.zipWith RVal.mul (l.map RVal.max0) (l.map fun p => p.neg.max0) =
      l.map fun p => (RVal.max0 p).mul (RVal.max0 p.neg) := by
  induction l with
  | nil => rfl
  | cons h t ih => simp [ih]

/-- C4 (amended): after a successful update_X on a trajectory whose decision
part is finite, the rebuilt X is the concatenation of the decisions with the
derived vectors, every temperature after the initial one is at least the
cold-water temperature, every import and export is non-negative, and the
pointwise product of imports and exports vanishes. The initial temperature
itself is copied unchanged, so it can lie below the cold-water temperature. -/
theorem update_X_flow_invariants (t t2 : TrajectorySystem)
    (cfg : SystemConfig) (ctx : ExternalContext) (T0 : ℚ)
    (xs house solar draws : List ℚ) (X : List RVal)
    (hcfg : t.config_system = some cfg) (hctx : t.context = some ctx)
    (hT0 : t.initial_temperature = some T0) (hX : t.X = some X)
    (hhouse : ctx.house_consumption = some house)
    (hsolar : ctx.solar_production = some solar)
    (hdraws : ctx.water_draws = some draws)
    (hxdec : X.take ctx.N = xs.map RVal.num)
    (hupd : TrajectorySystem.update_X t = .ok t2) :
    ∃ temps imps exps : List RVal,
      t2.X = some (xs.map RVal.num ++ temps ++ imps ++ exps) ∧
      (∀ v ∈ temps.tail, ∃ q : ℚ, v = RVal.num q ∧ cfg.T_cold_water ≤ q) ∧
      (∀ v ∈ imps, ∃ q : ℚ, v = RVal.num q ∧ 0 ≤ q) ∧
      (∀ v ∈ exps, ∃ q : ℚ, v = RVal.num q ∧ 0 ≤ q) ∧
      ∀ v ∈ List.zipWith RVal.mul imps exps, v = RVal.num 0 := by
  unfold TrajectorySystem.update_X at hupd
  rw [hX, hcfg, hctx, hT0] at hupd
  dsimp only at hupd
  rw [hhouse, hsolar, hdraws] at hupd
  dsimp only at hupd
  rw [hxdec] at hupd
  injection hupd with hupd
  subst hupd
  have hxsnum : ∀ x ∈ xs.map RVal.num, ∃ q : ℚ, x = RVal.num q := by
    intro x hx
    obtain ⟨a, _, ha⟩ := List.mem_map.mp hx
    exact ⟨a, ha.symm⟩
  have hpnet := pNetOf_mem_num cfg.power house solar (xs.map RVal.num) hxsnum
  refine ⟨_, _, _, rfl, ?_, ?_, ?_, ?_⟩
  · apply tempSeq_tail_spec
    intro p hp
    have h2 := (List.of_mem_zip hp).2
    obtain ⟨a, _, ha⟩ := List.mem_map.mp h2
    exact ⟨a, ha.symm⟩
  · intro v hv
    obtain ⟨w, hw, hvw⟩ := List.mem_map.mp hv
    obtain ⟨q, hq⟩ := hpnet w hw
    subst hq
    exact ⟨max 0 q, hvw.symm, le_max_left 0 q⟩
  · intro v hv
    obtain ⟨w, hw, hvw⟩ := List.mem_map.mp hv
    obtain ⟨q, hq⟩ := hpnet w hw
    subst hq
    exact ⟨max 0 (-q), hvw.symm, le_max_left 0 (-q)⟩
  · intro v hv
    rw [zip_max0_prod] at hv
    obtain ⟨w, hw, hvw⟩ := List.mem_map.mp hv
    obtain ⟨q, hq⟩ := hpnet w hw
    subst hq
    rw [← hvw]
    exact max0_mul_max0_neg q

/-- Helper: explicit evaluation of update_X on the one-step example whose
initial temperature 10 C lies below the cold-water temperature 20 C. -/
theorem update_X_wTraj_eval :
    TrajectorySystem.update_X wTraj = .ok wTraj2 := by
  unfold TrajectorySystem.update_X
  norm_num [wTraj, wTraj2, wCfg, wCtx, TrajectorySystem.pNetOf,
    TrajectorySystem.tempSeq, RVal.pymax, RVal.lt, RVal.add, RVal.mul,
    RVal.neg, RVal.sub, RVal.max0]

/-- Counterexample for C4 as stated: after update_X the initial temperature
stays at 10 C, strictly below the cold-water temperature 20 C, so the bound
does not hold at temperature index zero. -/
theorem update_X_keeps_initial_below_cold :
    TrajectorySystem.update_X wTraj = .ok wTraj2 ∧
    TrajectorySystem.get_temperatures wTraj2 =
      .ok (some [RVal.num 10, RVal.num 20]) ∧
    wCfg.T_cold_water = 20 ∧ ¬ ((20 : ℚ) ≤ 10) :=
  ⟨update_X_wTraj_eval, rfl, rfl, by norm_num⟩

/-- Witness for C4: the invariants instantiated on the one-step example. -/
theorem update_X_flow_invariants_witness :
    wTraj.X = some [RVal.num 0, RVal.nan, RVal.nan, RVal.nan, RVal.nan] ∧
    ∃ temps imps exps : List RVal,
      wTraj2.X = some (([0] : List ℚ).map RVal.num ++ temps ++ imps ++ exps) ∧
      (∀ v ∈ temps.tail, ∃ q : ℚ, v = RVal.num q ∧ wCfg.T_cold_water ≤ q) ∧
      (∀ v ∈ imps, ∃ q : ℚ, v = RVal.num q ∧ 0 ≤ q) ∧
      (∀ v ∈ exps, ∃ q : ℚ, v = RVal.num q ∧ 0 ≤ q) ∧
      ∀ v ∈ List.zipWith RVal.mul imps exps, v = RVal.num 0 :=
  ⟨rfl, update_X_flow_invariants wTraj wTraj2 wCfg wCtx 10 [0] [100] [0] [0]
    [RVal.num 0, RVal.nan, RVal.nan, RVal.nan, RVal.nan]
    rfl rfl rfl rfl rfl rfl rfl rfl update_X_wTraj_eval⟩

/-- Helper: on a sentinel-filled vector fresh from the x setter, both flow
slices consist entirely of the NaN sentinel. -/
theorem get_slices_sentinel (t : TrajectorySystem) (N : ℕ) (xs : List ℚ)
    (hxs : xs.length = N)
    (hX : t.X =
      some (xs.map RVal.num ++ List.replicate (3 * N + 1) RVal.nan)) :
    TrajectorySystem.get_exports t = .ok (some (List.replicate N RVal.nan)) ∧
    TrajectorySystem.get_imports t = .ok (some (List.replicate N RVal.nan)) := by
  have hmaplen : (xs.map RVal.num).length = N := by
    simpa using hxs
  have hlenA : (xs.map RVal.num ++
      List.replicate (3 * N + 1) RVal.nan).length = 4 * N + 1 := by
    rw [List.length_append, hmaplen, List.length_replicate]
    omega
  have hmod : ¬ (((4 * N + 1 : ℕ) : ℤ) - 1) % 4 ≠ 0 := by
    push_cast
    omega
  have hdiv : (4 * N + 1 - 1) / 4 = N := by omega
  have h1 : List.drop (3 * N + 1)
      (xs.map RVal.num ++ List.replicate (3 * N + 1) RVal.nan) =
      List.drop (2 * N + 1) (List.replicate (3 * N + 1) RVal.nan) := by
    have h := @List.drop_append RVal (xs.map RVal.num)
      (List.replicate (3 * N + 1) RVal.nan) (2 * N + 1)
    rwa [hmaplen, show N + (2 * N + 1) = 3 * N + 1 by omega] at h
  have h2 : List.drop (2 * N + 1)
      (xs.map RVal.num ++ List.replicate (3 * N + 1) RVal.nan) =
      List.drop (N + 1) (List.replicate (3 * N + 1) RVal.nan) := by
    have h := @List.drop_append RVal (xs.map RVal.num)
      (List.replicate (3 * N + 1) RVal.nan) (N + 1)
    rwa [hmaplen, show N + (N + 1) = 2 * N + 1 by omega] at h
  constructor
  · unfold TrajectorySystem.get_exports
    rw [hX]
    dsimp only
    rw [hlenA, if_neg hmod, hdiv, h1, List.drop_replicate,
      show 3 * N + 1 - (2 * N + 1) = N by omega, List.take_replicate,
      min_self]
  · unfold TrajectorySystem.get_imports
    rw [hX]
    dsimp only
    rw [hlenA, if_neg hmod, hdiv, h2, List.drop_replicate,
      List.take_replicate, show N ⊓ (3 * N + 1 - (N + 1)) = N by omega]

/-- Helper: NaN absorbs addition on the left. -/
theorem nan_add (b : RVal) : RVal.add .nan b = .nan := by cases b <;> rfl

/-- Helper: NaN absorbs multiplication on the left. -/
theorem nan_mul (b : RVal) : RVal.mul .nan b = .nan := by cases b <;> rfl

/-- Helper: NaN absorbs multiplication on the right. -/
theorem mul_nan (a : RVal) : RVal.mul a .nan = .nan := by cases a <;> rfl

/-- Helper: NaN absorbs subtraction on the left. -/
theorem nan_sub (b : RVal) : RVal.sub .nan b = .nan := by cases b <;> rfl

/-- Helper: NaN absorbs division on the left. -/
theorem nan_div (b : RVal) : RVal.div .nan b = .nan := by cases b <;> rfl

/-- Helper: a dot product whose left vector is entirely NaN is NaN as soon
as both vectors are nonempty. -/
theorem dot_replicate_nan (n : ℕ) (hn : 1 ≤ n) (p : RVal) (rest : List RVal) :
    RVal.dot (List.replicate n RVal.nan) (p :: rest) = RVal.nan := by
  cases n with
  | zero => omega
  | succ m =>
    unfold RVal.dot RVal.listSum
    rw [List.replicate_succ, List.zipWith_cons_cons, List.foldr_cons,
      nan_mul, nan_add]

/-- C6 (amended): on a trajectory whose derived positions hold the NaN
sentinel left by the x setter, compute_self_consumption raises the
update-required error, but compute_cost performs no NaN screening: it
computes through the sentinel and returns the NaN cost value instead of
raising. -/
theorem nan_sentinel_consumers (t : TrajectorySystem) (ctx : ExternalContext)
    (xs pp ps solar : List ℚ)
    (hctx : t.context = some ctx)
    (hX : t.X =
      some (xs.map RVal.num ++ List.replicate (3 * ctx.N + 1) RVal.nan))
    (hxs : xs.length = ctx.N) (hN : 1 ≤ ctx.N)
    (hpp : ctx.prices_purchases = some pp) (hpplen : pp.length = ctx.N)
    (hps : ctx.prices_sell = some ps) (hpslen : ps.length = ctx.N)
    (hstep : ctx.step_minutes ≠ 0)
    (hsolar : ctx.solar_production = some solar)
    (hcost : t.cost = none) (hsc : t.self_consumption = none) :
    TrajectorySystem.compute_cost t = .ok RVal.nan ∧
    TrajectorySystem.compute_self_consumption t = .error .updateRequired := by
  obtain ⟨hexp, himp⟩ := get_slices_sentinel t ctx.N xs hxs hX
  constructor
  · unfold TrajectorySystem.compute_cost
    rw [hcost, hctx]
    dsimp only
    rw [hpp, hps]
    dsimp only
    rw [if_neg hstep, hexp, himp]
    dsimp only
    rw [if_neg (by simp [hpplen, hpslen])]
    obtain ⟨p, pr, rfl⟩ : ∃ p pr, pp = p :: pr := by
      cases pp with
      | nil => simp at hpplen; omega
      | cons a b => exact ⟨a, b, rfl⟩
    obtain ⟨s, sr, rfl⟩ : ∃ s sr, ps = s :: sr := by
      cases ps with
      | nil => simp at hpslen; omega
      | cons a b => exact ⟨a, b, rfl⟩
    rw [List.map_cons, List.map_cons, dot_replicate_nan ctx.N hN,
      dot_replicate_nan ctx.N hN, nan_sub, mul_nan, nan_div]
  · unfold TrajectorySystem.compute_self_consumption
    rw [hsc, hctx]
    dsimp only
    rw [hexp]
    dsimp only
    rw [hsolar]
    dsimp only
    have hany : (List.replicate ctx.N RVal.nan).any RVal.isnan = true := by
      obtain ⟨m, hm⟩ : ∃ m, ctx.N = m + 1 := ⟨ctx.N - 1, by omega⟩
      rw [hm]
      simp [List.replicate_succ, RVal.isnan]
    rw [if_pos hany]

/-- Counterexample for C6 as stated: on the one-step sentinel trajectory
with prices, step and solar data present, compute_cost returns the NaN cost
value and does not raise the update-required error. -/
theorem compute_cost_returns_nan_value :
    TrajectorySystem.compute_cost cTraj = .ok RVal.nan ∧
    TrajectorySystem.compute_cost cTraj ≠ .error Err.updateRequired := by
  have h1 : TrajectorySystem.compute_cost cTraj = .ok RVal.nan := rfl
  refine ⟨h1, ?_⟩
  rw [h1]
  simp

/-- Witness for C6: both consumers evaluated on the one-step sentinel
trajectory. -/
theorem nan_sentinel_consumers_witness :
    cTraj.X = some (([1] : List ℚ).map RVal.num ++
      List.replicate 4 RVal.nan) ∧
    TrajectorySystem.compute_cost cTraj = .ok RVal.nan ∧
    TrajectorySystem.compute_self_consumption cTraj =
      .error .updateRequired := by
  have h := nan_sentinel_consumers cTraj cCtx [1] [2] [1] [5] rfl rfl rfl
    (by decide) rfl rfl rfl rfl (by decide) rfl rfl rfl
  exact ⟨rfl, h.1, h.2⟩

/-- C5: the standard thermostat simulator computes at each step the decision
1 exactly when the simulated temperature is below the setpoint and heating
is allowed, and does not invoke the solver; but because the final update
call is commented out, the returned trajectory stores only the decision
vector: on the off-peak scenario the decisions are [1, 1, 0, 0] (the last
two steps blocked by the off-peak signal and the reached temperature), while
every derived temperature, import and export position holds the NaN
sentinel instead of the derived vectors. -/
theorem standard_trajectory_sentinel :
    TrajectorySystem.generate_standard_trajectory (some sCtx) (some sCfg)
      (some 40) (some .SETPOINT_OFF_PEAK) (some 55) = .ok sTraj ∧
    TrajectorySystem.get_decisions sTraj =
      some [RVal.num 1, RVal.num 1, RVal.num 0, RVal.num 0] ∧
    TrajectorySystem.get_temperatures sTraj =
      .ok (some (List.replicate 5 RVal.nan)) ∧
    TrajectorySystem.get_imports sTraj =
      .ok (some (List.replicate 4 RVal.nan)) ∧
    TrajectorySystem.get_exports sTraj =
      .ok (some (List.replicate 4 RVal.nan)) := by
  refine ⟨?_, rfl, rfl, rfl, rfl⟩
  unfold TrajectorySystem.generate_standard_trajectory
    TrajectorySystem.setDecisions
  norm_num [sCtx, sCfg, sTraj, TrajectorySystem.standardDecisions,
    List.replicate_succ]

end OptimiserEngine
